import Mathlib

/-!
Shallow embedding of the design-patterns input-polling program.

The program consists of:
- an abstract `Input` capability with four boolean queries (src/include/Input.hpp);
- three concrete variants: `Keyboard` (src/include/Keyboard.hpp, src/src/Keyboard.cpp),
  `GameController` (src/include/GameController.hpp; method bodies are not in src/),
  and `NullInput` (src/include/NullInput.hpp);
- `InputFactory.Create` mapping a device-name string to a variant
  (src/include/InputFactory.hpp);
- the poll loop `Game` (src/src/main.cpp) running five iterations and emitting lines.

Stateful C++ objects become explicit state passing: a query takes the object state
and returns the boolean result together with the updated state.  Printed output is
modelled as the list of lines passed to std::print, each without its trailing
newline (a bare newline prints the empty line "").  The one-second sleep between
iterations has no observable effect in this model and is omitted.
-/

/-- Modulus of std::default_random_engine (libstdc++ minstd_rand0), 2^31 - 1. -/
def lcgMod : Nat := 2147483647

/-- Multiplier of minstd_rand0. -/
def lcgMult : Nat := 16807

/-- One step of the engine: the C++ operator() updates the state to
(16807 * x) mod (2^31 - 1) and returns the new state. -/
def engineNext (s : Nat) : Nat := (lcgMult * s) % lcgMod

/-- Number of distinct engine outputs: max - min + 1 = 2147483646 - 1 + 1. -/
def engineRange : Nat := 2147483646

/-- std::generate_canonical for double (53 bits) over minstd_rand0: two engine
draws d1, d2 (each shifted down by the engine minimum 1) combined as the value
(d1 + d2 * R) / R^2 where R is the engine range.  This function returns the
exact numerator of that value (over denominator R^2) and the advanced engine
state. -/
def generateCanonicalNum (s : Nat) : Nat × Nat :=
  let s1 := engineNext s
  let s2 := engineNext s1
  ((s1 - 1) + (s2 - 1) * engineRange, s2)

/-- The canonical value itself, as an exact rational in [0, 1). -/
def generateCanonical (s : Nat) : ℚ × Nat :=
  (((generateCanonicalNum s).1 : ℚ) / ((engineRange : ℚ) * (engineRange : ℚ)),
    (generateCanonicalNum s).2)

/-- std::bernoulli_distribution::operator()(engine) with probability-of-true
pNum / pDen: draw one canonical value and compare it against the probability.
The comparison is cross-multiplied into Nat arithmetic; it is equivalent to
the rational comparison canonical < pNum / pDen (proved below). -/
def bernoulliDraw (pNum pDen : Nat) (s : Nat) : Bool × Nat :=
  let c := generateCanonicalNum s
  (decide (c.1 * pDen < pNum * (engineRange * engineRange)), c.2)

/-- Keyboard state: the engine member `m_Engine` of src/include/Keyboard.hpp.
(The bernoulli_distribution constructed in SimulateInput is stateless.) -/
structure Keyboard where
  m_Engine : Nat
deriving DecidableEq, Repr

/-- A freshly constructed Keyboard: `std::default_random_engine m_Engine{12345}`. -/
def Keyboard.new : Keyboard := ⟨12345⟩

/-- Keyboard::SimulateInput (src/src/Keyboard.cpp): construct a
bernoulli_distribution with p = 0.5 and draw once from m_Engine. -/
def Keyboard.SimulateInput (k : Keyboard) : Bool × Keyboard :=
  let d := bernoulliDraw 1 2 k.m_Engine
  (d.1, ⟨d.2⟩)

/-- Keyboard::Up: returns SimulateInput(). -/
def Keyboard.Up (k : Keyboard) : Bool × Keyboard := k.SimulateInput

/-- Keyboard::Down: returns SimulateInput(). -/
def Keyboard.Down (k : Keyboard) : Bool × Keyboard := k.SimulateInput

/-- Keyboard::Left: returns SimulateInput(). -/
def Keyboard.Left (k : Keyboard) : Bool × Keyboard := k.SimulateInput

/-- Keyboard::Right: returns SimulateInput(). -/
def Keyboard.Right (k : Keyboard) : Bool × Keyboard := k.SimulateInput

/-- GameController state: the engine member `m_Engine` of
src/include/GameController.hpp.  The member `m_Dist` is a
bernoulli_distribution with p = 0.3, which is stateless; its probability is
the threshold used by `GameController.SimulateInput`. -/
structure GameController where
  m_Engine : Nat
deriving DecidableEq, Repr

/-- A freshly constructed GameController:
`std::default_random_engine m_Engine{99999}`. -/
def GameController.new : GameController := ⟨99999⟩

/-- Modelled from the spec: src/include/GameController.hpp declares
`bool SimulateInput();` but its body is not under src/.  Per the spec,
Variant B uses the identical mechanism to Variant A — draw one
Bernoulli-distributed boolean — with probability-of-true 0.3 (the header
member `m_Dist{0.3}`) from its own engine. -/
def GameController.SimulateInput (g : GameController) : Bool × GameController :=
  let d := bernoulliDraw 3 10 g.m_Engine
  (d.1, ⟨d.2⟩)

/-- Modelled from the spec: GameController::Up is declared in the header but its
body is not under src/; per the spec each query draws once via the shared
mechanism. -/
def GameController.Up (g : GameController) : Bool × GameController := g.SimulateInput

/-- Modelled from the spec: GameController::Down (see `GameController.Up`). -/
def GameController.Down (g : GameController) : Bool × GameController := g.SimulateInput

/-- Modelled from the spec: GameController::Left (see `GameController.Up`). -/
def GameController.Left (g : GameController) : Bool × GameController := g.SimulateInput

/-- Modelled from the spec: GameController::Right (see `GameController.Up`). -/
def GameController.Right (g : GameController) : Bool × GameController := g.SimulateInput

/-- NullInput (src/include/NullInput.hpp) has no members. -/
structure NullInput where
deriving DecidableEq, Repr

/-- A freshly constructed NullInput. -/
def NullInput.new : NullInput := ⟨⟩

/-- NullInput::Up: returns false. -/
def NullInput.Up (n : NullInput) : Bool × NullInput := (false, n)

/-- NullInput::Down: returns false. -/
def NullInput.Down (n : NullInput) : Bool × NullInput := (false, n)

/-- NullInput::Left: returns false. -/
def NullInput.Left (n : NullInput) : Bool × NullInput := (false, n)

/-- NullInput::Right: returns false. -/
def NullInput.Right (n : NullInput) : Bool × NullInput := (false, n)

/-- The abstract Input interface (src/include/Input.hpp): four boolean queries
over an implementation state σ.  A concrete class is embedded as its state
type together with one such record of methods. -/
structure Input (σ : Type) where
  Up : σ → Bool × σ
  Down : σ → Bool × σ
  Left : σ → Bool × σ
  Right : σ → Bool × σ

/-- Keyboard viewed through the Input interface. -/
def Keyboard.input : Input Keyboard :=
  ⟨Keyboard.Up, Keyboard.Down, Keyboard.Left, Keyboard.Right⟩

/-- GameController viewed through the Input interface. -/
def GameController.input : Input GameController :=
  ⟨GameController.Up, GameController.Down, GameController.Left, GameController.Right⟩

/-- NullInput viewed through the Input interface. -/
def NullInput.input : Input NullInput :=
  ⟨NullInput.Up, NullInput.Down, NullInput.Left, NullInput.Right⟩

/-- The four query selectors of the Input interface. -/
inductive Query where
  | up
  | down
  | left
  | right
deriving DecidableEq, Repr

/-- Dispatch one query on an Input implementation. -/
def Input.runQuery {σ : Type} (I : Input σ) : Query → σ → Bool × σ
  | .up, s => I.Up s
  | .down, s => I.Down s
  | .left, s => I.Left s
  | .right, s => I.Right s

/-- Run a sequence of queries, collecting the boolean results in order and
threading the implementation state. -/
def Input.runSeq {σ : Type} (I : Input σ) : List Query → σ → List Bool × σ
  | [], s => ([], s)
  | q :: qs, s =>
    let r := I.runQuery q s
    let rest := I.runSeq qs r.2
    (r.1 :: rest.1, rest.2)

/-- The result of InputFactory::Create: one of the three concrete variants,
freshly constructed. -/
inductive InputDevice where
  | keyboard (k : Keyboard)
  | gamecontroller (g : GameController)
  | nullinput (n : NullInput)
deriving DecidableEq, Repr

/-- InputFactory (src/include/InputFactory.hpp). -/
def InputFactory.Create (device : String) : Except String InputDevice :=
  if device = "keyboard" then .ok (.keyboard Keyboard.new)
  else if device = "gamecontroller" then .ok (.gamecontroller GameController.new)
  else if device = "null" then .ok (.nullinput NullInput.new)
  else .error ("InputFactory: unknown device \x27" ++ device ++ "\x27")

/-- Dynamic dispatch of Up on a created device. -/
def InputDevice.Up : InputDevice → Bool × InputDevice
  | .keyboard k => let r := k.Up; (r.1, .keyboard r.2)
  | .gamecontroller g => let r := g.Up; (r.1, .gamecontroller r.2)
  | .nullinput n => let r := n.Up; (r.1, .nullinput r.2)

/-- Dynamic dispatch of Down on a created device. -/
def InputDevice.Down : InputDevice → Bool × InputDevice
  | .keyboard k => let r := k.Down; (r.1, .keyboard r.2)
  | .gamecontroller g => let r := g.Down; (r.1, .gamecontroller r.2)
  | .nullinput n => let r := n.Down; (r.1, .nullinput r.2)

/-- Dynamic dispatch of Left on a created device. -/
def InputDevice.Left : InputDevice → Bool × InputDevice
  | .keyboard k => let r := k.Left; (r.1, .keyboard r.2)
  | .gamecontroller g => let r := g.Left; (r.1, .gamecontroller r.2)
  | .nullinput n => let r := n.Left; (r.1, .nullinput r.2)

/-- Dynamic dispatch of Right on a created device. -/
def InputDevice.Right : InputDevice → Bool × InputDevice
  | .keyboard k => let r := k.Right; (r.1, .keyboard r.2)
  | .gamecontroller g => let r := g.Right; (r.1, .gamecontroller r.2)
  | .nullinput n => let r := n.Right; (r.1, .nullinput r.2)

/-- The pitch-axis block of the loop body (src/src/main.cpp lines 44-50):
`if (input.Up()) print "Pitch up"; else if (input.Down()) print "Pitch down";
else print "Plane is level"`.  Returns the emitted line and the input state
after the queries made by this block. -/
def pitchStep {σ : Type} (I : Input σ) (s : σ) : String × σ :=
  let p := I.Up s
  if p.1 then ("Pitch up", p.2)
  else
    let d := I.Down p.2
    if d.1 then ("Pitch down", d.2) else ("Plane is level", d.2)

/-- The roll-axis block of the loop body (src/src/main.cpp lines 53-59):
`if (input.Left()) print "Roll left"; else if (input.Right()) print
"Roll right"; else print "Plane is flying straight"`. -/
def rollStep {σ : Type} (I : Input σ) (s : σ) : String × σ :=
  let l := I.Left s
  if l.1 then ("Roll left", l.2)
  else
    let r := I.Right l.2
    if r.1 then ("Roll right", r.2) else ("Plane is flying straight", r.2)

/-- One iteration of the body of the while loop in Game (src/src/main.cpp,
lines 41-61): separator, pitch axis, roll axis, blank line.  Returns the
emitted lines and the input state after the queries made this iteration. -/
def gameIter {σ : Type} (I : Input σ) (s : σ) : List String × σ :=
  let pitch := pitchStep I s
  let roll := rollStep I pitch.2
  (["===================", pitch.1, roll.1, ""], roll.2)

/-- Fuel-indexed semantics of the while loop of Game: `count` is the C++
`int count`; the loop runs while count is nonzero, emitting one iteration and
decrementing count.  `none` means the fuel did not cover the run. -/
def gameAux {σ : Type} (I : Input σ) : Nat → Int → σ → Option (List String)
  | 0, count, _ => if count = 0 then some [] else none
  | fuel + 1, count, s =>
    if count = 0 then some []
    else
      let p := gameIter I s
      Option.map (fun rest => p.1 ++ rest) (gameAux I fuel (count - 1) p.2)

/-- Game (src/src/main.cpp): `int count{5}; while (count != 0) { ... --count; }`.
Fuel 5 covers the run exactly (proved below). -/
def Game {σ : Type} (I : Input σ) (s : σ) : Option (List String) := gameAux I 5 5 s

/-- The output of exactly n iterations of the loop body from state s. -/
def iterOut {σ : Type} (I : Input σ) : Nat → σ → List String
  | 0, _ => []
  | n + 1, s =>
    let p := gameIter I s
    p.1 ++ iterOut I n p.2

/-- A stub implementation whose four queries all return true, used to witness
the short-circuit priority of the poll loop. -/
def stubTrue : Input Unit :=
  ⟨fun _ => (true, ()), fun _ => (true, ()), fun _ => (true, ()), fun _ => (true, ())⟩

/-- Dispatch one query on a created device (dynamic dispatch through the
Input vtable). -/
def InputDevice.runQuery : Query → InputDevice → Bool × InputDevice
  | .up, d => d.Up
  | .down, d => d.Down
  | .left, d => d.Left
  | .right, d => d.Right

/-- The block of lines one NullInput iteration prints. -/
def nullBlock : List String :=
  ["===================", "Plane is level", "Plane is flying straight", ""]

/-- The block of lines one all-true-stub iteration prints. -/
def stubBlock : List String :=
  ["===================", "Pitch up", "Roll left", ""]

section Lemmas

/-- Every loop iteration emits exactly four lines. -/
theorem gameIter_length {σ : Type} (I : Input σ) (s : σ) :
    (gameIter I s).1.length = 4 := rfl

/-- With fuel covering the count, the loop runs the count down to zero and
produces exactly that many iterations of output. -/
theorem gameAux_complete {σ : Type} (I : Input σ) :
    ∀ (c m : Nat) (s : σ), gameAux I (c + m) (c : Int) s = some (iterOut I c s) := by
  intro c
  induction c with
  | zero =>
    intro m s
    cases m <;> simp [gameAux, iterOut]
  | succ n ih =>
    intro m s
    have hfuel : n + 1 + m = (n + m) + 1 := by omega
    rw [hfuel]
    simp only [gameAux, iterOut]
    have hc : ((n + 1 : Nat) : Int) ≠ 0 := by
      exact_mod_cast Nat.succ_ne_zero n
    rw [if_neg hc]
    have hsub : ((n + 1 : Nat) : Int) - 1 = (n : Int) := by push_cast; ring
    rw [hsub, ih m]
    simp

/-- With fuel short of the count, the loop does not finish. -/
theorem gameAux_insufficient {σ : Type} (I : Input σ) :
    ∀ (fuel c : Nat) (s : σ), fuel < c → gameAux I fuel (c : Int) s = none := by
  intro fuel
  induction fuel with
  | zero =>
    intro c s hlt
    have hc : ((c : Nat) : Int) ≠ 0 := by
      have : c ≠ 0 := by omega
      exact_mod_cast this
    simp [gameAux, hc]
  | succ n ih =>
    intro c s hlt
    have hc : ((c : Nat) : Int) ≠ 0 := by
      have : c ≠ 0 := by omega
      exact_mod_cast this
    simp only [gameAux, if_neg hc]
    obtain ⟨k, rfl⟩ : ∃ k, c = k + 1 := ⟨c - 1, by omega⟩
    have hsub : ((k + 1 : Nat) : Int) - 1 = (k : Int) := by push_cast; ring
    rw [hsub, ih k _ (by omega)]
    rfl

/-- Exactly n iterations emit 4 * n lines. -/
theorem iterOut_length {σ : Type} (I : Input σ) :
    ∀ (n : Nat) (s : σ), (iterOut I n s).length = 4 * n := by
  intro n
  induction n with
  | zero => intro s; rfl
  | succ k ih =>
    intro s
    simp only [iterOut, List.length_append, gameIter_length, ih]
    omega

/-- Every Keyboard query method is SimulateInput. -/
theorem keyboard_runQuery_const (q : Query) (k : Keyboard) :
    Keyboard.input.runQuery q k = k.SimulateInput := by
  cases q <;> rfl

/-- The cross-multiplied comparison of `bernoulliDraw` is exactly the rational
comparison of the canonical value against the probability pNum / pDen. -/
theorem bernoulliDraw_eq_canonical_lt (pNum pDen s : Nat) (hp : 0 < pDen) :
    (bernoulliDraw pNum pDen s).1
      = decide ((generateCanonical s).1 < (pNum : ℚ) / (pDen : ℚ)) := by
  simp only [bernoulliDraw, generateCanonical]
  rw [decide_eq_decide]
  have hR : (0 : ℚ) < (engineRange : ℚ) * (engineRange : ℚ) := by
    norm_num [engineRange]
  have hpD : (0 : ℚ) < (pDen : ℚ) := by exact_mod_cast hp
  rw [div_lt_div_iff₀ hR hpD]
  constructor
  · intro h; exact_mod_cast h
  · intro h; exact_mod_cast h

end Lemmas

/-- Claim C1: for each of the three recognized device names "keyboard",
"gamecontroller" and "null", InputFactory.Create returns a newly constructed
instance of the corresponding variant, and each of the four queries of the
returned instance evaluates to a boolean result and successor state. -/
theorem factory_create_variants :
    (InputFactory.Create "keyboard" = .ok (.keyboard Keyboard.new))
    ∧ (InputFactory.Create "gamecontroller" = .ok (.gamecontroller GameController.new))
    ∧ (InputFactory.Create "null" = .ok (.nullinput NullInput.new))
    ∧ (∀ q : Query,
        (∃ r : Bool × InputDevice, (InputDevice.keyboard Keyboard.new).runQuery q = r)
        ∧ (∃ r : Bool × InputDevice, (InputDevice.gamecontroller GameController.new).runQuery q = r)
        ∧ (∃ r : Bool × InputDevice, (InputDevice.nullinput NullInput.new).runQuery q = r)) :=
  ⟨rfl, rfl, rfl, fun _ => ⟨⟨_, rfl⟩, ⟨_, rfl⟩, ⟨_, rfl⟩⟩⟩

/-- Claim C2: for every device name outside the recognized set,
InputFactory.Create fails with an invalid-argument error whose message
contains the offending name, and returns no device. -/
theorem factory_create_unrecognized (device : String)
    (h1 : device ≠ "keyboard") (h2 : device ≠ "gamecontroller") (h3 : device ≠ "null") :
    InputFactory.Create device
        = .error ("InputFactory: unknown device \x27" ++ device ++ "\x27")
    ∧ (∀ d : InputDevice, InputFactory.Create device ≠ .ok d) := by
  constructor
  · simp [InputFactory.Create, h1, h2, h3]
  · intro d hc
    simp [InputFactory.Create, h1, h2, h3] at hc

/-- Witness for C2 at the concrete unrecognized name "mouse". -/
theorem factory_create_unrecognized_witness :
    ("mouse" ≠ "keyboard")
    ∧ InputFactory.Create "mouse"
        = .error ("InputFactory: unknown device \x27" ++ "mouse" ++ "\x27") :=
  ⟨by decide,
    (factory_create_unrecognized "mouse" (by decide) (by decide) (by decide)).1⟩

/-- Claim C3: for every sequence of queries, of any length and interleaving,
each NullInput query returns false and the state is unchanged. -/
theorem nullinput_always_false :
    ∀ (qs : List Query) (n : NullInput),
      NullInput.input.runSeq qs n = (List.replicate qs.length false, n) := by
  intro qs
  induction qs with
  | nil => intro n; rfl
  | cons q tl ih =>
    intro n
    have hq : NullInput.input.runQuery q n = (false, n) := by cases q <;> rfl
    simp [Input.runSeq, hq, ih n, List.replicate]

/-- Claim C5: the poll loop run on a NullInput terminates after exactly five
iterations (fuel 5 completes, fuel 4 does not) and prints exactly five
repetitions of: separator, "Plane is level", "Plane is flying straight",
blank line. -/
theorem poll_nullinput_output :
    Game NullInput.input NullInput.new = some (List.flatten (List.replicate 5 nullBlock))
    ∧ gameAux NullInput.input 4 5 NullInput.new = none :=
  ⟨rfl, rfl⟩

/-- Claim C10: InputFactory.Create recognizes a name exactly when it equals
one of the three literals — matching is exact and case-sensitive, so
"Keyboard", "KEYBOARD" and "keyboard " (trailing space) all fail with the
invalid-argument error. -/
theorem factory_exact_case_sensitive :
    (∀ s : String,
      (∃ d : InputDevice, InputFactory.Create s = .ok d) ↔
        (s = "keyboard" ∨ s = "gamecontroller" ∨ s = "null"))
    ∧ InputFactory.Create "Keyboard"
        = .error ("InputFactory: unknown device \x27" ++ "Keyboard" ++ "\x27")
    ∧ InputFactory.Create "KEYBOARD"
        = .error ("InputFactory: unknown device \x27" ++ "KEYBOARD" ++ "\x27")
    ∧ InputFactory.Create "keyboard "
        = .error ("InputFactory: unknown device \x27" ++ "keyboard " ++ "\x27") := by
  refine ⟨?_, by rfl, by rfl, by rfl⟩
  intro s
  constructor
  · rintro ⟨d, hd⟩
    by_cases h1 : s = "keyboard"
    · exact Or.inl h1
    by_cases h2 : s = "gamecontroller"
    · exact Or.inr (Or.inl h2)
    by_cases h3 : s = "null"
    · exact Or.inr (Or.inr h3)
    simp [InputFactory.Create, h1, h2, h3] at hd
  · rintro (rfl | rfl | rfl) <;> exact ⟨_, rfl⟩

/-- Claim C4: per iteration the pitch axis resolves Up before Down with
short-circuit (when Up is true the result does not depend on Down, the line is
"Pitch up", and the state advances only by the Up query), and symmetrically
Left before Right on the roll axis; the loop body is these two blocks between
the separator and the blank line; with the all-true stub only "Pitch up" is
ever emitted on the pitch axis, never "Pitch down". -/
theorem poll_shortcircuit_priority :
    (∀ (σ : Type) (I J : Input σ) (s : σ), I.Up = J.Up →
        (I.Up s).1 = true → pitchStep I s = pitchStep J s)
    ∧ (∀ (σ : Type) (I : Input σ) (s : σ),
        (I.Up s).1 = true → pitchStep I s = ("Pitch up", (I.Up s).2))
    ∧ (∀ (σ : Type) (I : Input σ) (s : σ),
        (I.Up s).1 = false → (I.Down (I.Up s).2).1 = true →
        pitchStep I s = ("Pitch down", (I.Down (I.Up s).2).2))
    ∧ (∀ (σ : Type) (I : Input σ) (s : σ),
        (I.Up s).1 = false → (I.Down (I.Up s).2).1 = false →
        pitchStep I s = ("Plane is level", (I.Down (I.Up s).2).2))
    ∧ (∀ (σ : Type) (I J : Input σ) (s : σ), I.Left = J.Left →
        (I.Left s).1 = true → rollStep I s = rollStep J s)
    ∧ (∀ (σ : Type) (I : Input σ) (s : σ),
        (I.Left s).1 = true → rollStep I s = ("Roll left", (I.Left s).2))
    ∧ (∀ (σ : Type) (I : Input σ) (s : σ),
        (I.Left s).1 = false → (I.Right (I.Left s).2).1 = true →
        rollStep I s = ("Roll right", (I.Right (I.Left s).2).2))
    ∧ (∀ (σ : Type) (I : Input σ) (s : σ),
        (I.Left s).1 = false → (I.Right (I.Left s).2).1 = false →
        rollStep I s = ("Plane is flying straight", (I.Right (I.Left s).2).2))
    ∧ (∀ (σ : Type) (I : Input σ) (s : σ),
        gameIter I s = (["===================", (pitchStep I s).1,
          (rollStep I (pitchStep I s).2).1, ""], (rollStep I (pitchStep I s).2).2))
    ∧ Game stubTrue () = some (List.flatten (List.replicate 5 stubBlock))
    ∧ "Pitch down" ∉ List.flatten (List.replicate 5 stubBlock) := by
  refine ⟨?_, ?_, ?_, ?_, ?_, ?_, ?_, ?_, ?_, by rfl, by decide⟩
  · intro σ I J s h hu
    simp only [pitchStep, ← h, hu, if_true]
  · intro σ I s hu
    simp only [pitchStep, hu, if_true]
  · intro σ I s hu hd
    simp only [pitchStep, hu, hd, Bool.false_eq_true, if_false, if_true]
  · intro σ I s hu hd
    simp only [pitchStep, hu, hd, Bool.false_eq_true, if_false]
  · intro σ I J s h hl
    simp only [rollStep, ← h, hl, if_true]
  · intro σ I s hl
    simp only [rollStep, hl, if_true]
  · intro σ I s hl hr
    simp only [rollStep, hl, hr, Bool.false_eq_true, if_false, if_true]
  · intro σ I s hl hr
    simp only [rollStep, hl, hr, Bool.false_eq_true, if_false]
  · intro σ I s
    rfl

/-- Witness for C4: the all-true stub satisfies the Up-true hypothesis, and
the pitch block then resolves to "Pitch up". -/
theorem poll_shortcircuit_priority_witness :
    ((stubTrue.Up ()).1 = true) ∧ pitchStep stubTrue () = ("Pitch up", ()) :=
  ⟨rfl, poll_shortcircuit_priority.2.1 Unit stubTrue () rfl⟩

/-- Claim C6: the loop counter starts at 5 and is decremented once per
iteration until it reaches 0: for every Input implementation the loop
terminates after exactly 5 iterations (fuel 5 or more completes with the
same 20 emitted lines, fuel 4 does not complete). -/
theorem poll_loop_five_iterations {σ : Type} (I : Input σ) (s : σ) :
    Game I s = some (iterOut I 5 s)
    ∧ (iterOut I 5 s).length = 20
    ∧ (∀ extra : Nat, gameAux I (5 + extra) 5 s = some (iterOut I 5 s))
    ∧ gameAux I 4 5 s = none := by
  refine ⟨?_, ?_, ?_, ?_⟩
  · have h := gameAux_complete I 5 0 s
    simpa [Game] using h
  · simp [iterOut_length]
  · intro extra
    have h := gameAux_complete I 5 extra s
    simpa using h
  · have h := gameAux_insufficient I 4 5 s (by omega)
    simpa using h

/-- Claim C7: each noisy variant, freshly constructed with its fixed seed, is
deterministic — re-running the same query sequence on a fresh instance yields
the identical boolean sequence — and the first eight query results form the
specific golden sequences below. -/
theorem variant_sequences_deterministic :
    (∀ qs : List Query,
      Keyboard.input.runSeq qs Keyboard.new = Keyboard.input.runSeq qs Keyboard.new
      ∧ GameController.input.runSeq qs GameController.new
          = GameController.input.runSeq qs GameController.new)
    ∧ (Keyboard.input.runSeq
        [.up, .down, .left, .right, .up, .down, .left, .right] Keyboard.new).1
        = [false, true, true, false, false, true, false, true]
    ∧ (GameController.input.runSeq
        [.up, .down, .left, .right, .up, .down, .left, .right] GameController.new).1
        = [false, false, false, false, false, true, true, false] :=
  ⟨fun _ => ⟨rfl, rfl⟩, by decide, by decide⟩

/-- Claim C8: every Keyboard query draws one Bernoulli boolean with
probability-of-true 1/2 from its engine, seeded with 12345; every
GameController query does the same with probability-of-true 3/10 and seed
99999; each draw consumes the shared engine (two LCG steps per canonical
value) and compares the canonical value against the probability. -/
theorem variant_bernoulli_mechanism :
    (Keyboard.new.m_Engine = 12345 ∧ GameController.new.m_Engine = 99999)
    ∧ (∀ (k : Keyboard) (q : Query),
        Keyboard.input.runQuery q k
          = ((bernoulliDraw 1 2 k.m_Engine).1, ⟨(bernoulliDraw 1 2 k.m_Engine).2⟩))
    ∧ (∀ (g : GameController) (q : Query),
        GameController.input.runQuery q g
          = ((bernoulliDraw 3 10 g.m_Engine).1, ⟨(bernoulliDraw 3 10 g.m_Engine).2⟩))
    ∧ (∀ s : Nat,
        (bernoulliDraw 1 2 s).1 = decide ((generateCanonical s).1 < (1 : ℚ) / 2)
        ∧ (bernoulliDraw 3 10 s).1 = decide ((generateCanonical s).1 < (3 : ℚ) / 10))
    ∧ (∀ (pNum pDen s : Nat),
        (bernoulliDraw pNum pDen s).2 = engineNext (engineNext s)) := by
  refine ⟨⟨rfl, rfl⟩, ?_, ?_, ?_, ?_⟩
  · intro k q; cases q <;> rfl
  · intro g q; cases q <;> rfl
  · intro s
    constructor
    · rw [bernoulliDraw_eq_canonical_lt 1 2 s (by norm_num)]
      norm_num
    · rw [bernoulliDraw_eq_canonical_lt 3 10 s (by norm_num)]
      norm_num
  · intro pNum pDen s; rfl

/-- Claim C9: all four Keyboard query methods are the same function
SimulateInput on the shared engine state, so the n-th query returns the same
boolean no matter which of the four methods is called n-th: runs of
equal-length query sequences from the same state coincide. -/
theorem keyboard_queries_interchangeable :
    (Keyboard.Up = Keyboard.SimulateInput ∧ Keyboard.Down = Keyboard.SimulateInput
      ∧ Keyboard.Left = Keyboard.SimulateInput ∧ Keyboard.Right = Keyboard.SimulateInput)
    ∧ (∀ (k : Keyboard) (qs qs' : List Query), qs.length = qs'.length →
        Keyboard.input.runSeq qs k = Keyboard.input.runSeq qs' k) := by
  refine ⟨⟨rfl, rfl, rfl, rfl⟩, ?_⟩
  intro k qs
  induction qs generalizing k with
  | nil =>
    intro qs' h
    cases qs' with
    | nil => rfl
    | cons => simp at h
  | cons q tl ih =>
    intro qs' h
    cases qs' with
    | nil => simp at h
    | cons q' tl' =>
      simp only [Input.runSeq, keyboard_runQuery_const]
      have h' : tl.length = tl'.length := by simpa using h
      rw [ih _ tl' h']

/-- Witness for C9: a two-query run with different methods in each position
gives the same results as a run with the other two methods. -/
theorem keyboard_queries_interchangeable_witness :
    ([Query.up, Query.left].length = [Query.down, Query.right].length)
    ∧ Keyboard.input.runSeq [Query.up, Query.left] Keyboard.new
        = Keyboard.input.runSeq [Query.down, Query.right] Keyboard.new :=
  ⟨rfl, keyboard_queries_interchangeable.2 Keyboard.new
    [Query.up, Query.left] [Query.down, Query.right] rfl⟩
